import Mathlib

/-
Verification of the CIA (complex interface adapter) subsystem of a C64
emulator, shallowly embedded from src/C64/CIA.h.  Machine words are
represented as Nat; 8-bit members (uint8_t) carry the width invariant
`< 256` as a hypothesis where it matters, 16-bit members `< 65536`, the
64-bit delay pipeline `< 2 ^ 64`.  The C complement `~x` on uint64_t is
embedded as `(2 ^ 64 - 1) ^^^ x`.
-/

namespace VC64

/-! Delay-pipeline event constants, from the `#define` block of CIA.h
(lines 34-90).  Each is a single bit of the 64-bit `delay` word. -/

def CountA0 : Nat := 0x00000001
def CountA1 : Nat := 0x00000002
def CountA2 : Nat := 0x00000004
def CountA3 : Nat := 0x00000008
def CountB0 : Nat := 0x00000010
def CountB1 : Nat := 0x00000020
def CountB2 : Nat := 0x00000040
def CountB3 : Nat := 0x00000080
def LoadA0 : Nat := 0x00000100
def LoadA1 : Nat := 0x00000200
def LoadA2 : Nat := 0x00000400
def LoadB0 : Nat := 0x00000800
def LoadB1 : Nat := 0x00001000
def LoadB2 : Nat := 0x00002000
def PB6Low0 : Nat := 0x00004000
def PB6Low1 : Nat := 0x00008000
def PB7Low0 : Nat := 0x00010000
def PB7Low1 : Nat := 0x00020000
def Interrupt0 : Nat := 0x00040000
def Interrupt1 : Nat := 0x00080000
def OneShotA0 : Nat := 0x00100000
def OneShotB0 : Nat := 0x00200000
def ReadIcr0 : Nat := 0x00400000
def ReadIcr1 : Nat := 0x00800000
def ClearIcr0 : Nat := 0x01000000
def ClearIcr1 : Nat := 0x02000000
def ClearIcr2 : Nat := 0x04000000
def SetIcr0 : Nat := 0x08000000
def SetIcr1 : Nat := 0x10000000
def TODInt0 : Nat := 0x20000000
def Cnt0 : Nat := 0x0000100000000000
def Cnt1 : Nat := 0x0000200000000000
def Cnt2 : Nat := 0x0000400000000000
def SerInt0 : Nat := 0x0000800000000000
def SerInt1 : Nat := 0x0001000000000000
def SerInt2 : Nat := 0x0002000000000000
def SerLoad0 : Nat := 0x0004000000000000
def SerLoad1 : Nat := 0x0008000000000000
def SerClk0 : Nat := 0x0010000000000000
def SerClk1 : Nat := 0x0020000000000000
def SerClk2 : Nat := 0x0040000000000000
def SerClk3 : Nat := 0x0080000000000000
def SetCntFlip0 : Nat := 0x0000000400000000
def SetCntFlip1 : Nat := 0x0000000800000000
def SetCntFlip2 : Nat := 0x0000001000000000
def SetCntFlip3 : Nat := 0x0000002000000000
def SetCnt0 : Nat := 0x0000004000000000
def SetCnt1 : Nat := 0x0000008000000000
def SetCnt2 : Nat := 0x0000010000000000
def SetCnt3 : Nat := 0x0000020000000000

/-- The union of the 19 stage-0 event bits that appear inside the
parentheses of the `DelayMask` definition (CIA.h line 90). -/
def delayStageZeroEvents : Nat :=
  CountA0 ||| CountB0 ||| LoadA0 ||| LoadB0 ||| PB6Low0 ||| PB7Low0 |||
  Interrupt0 ||| OneShotA0 ||| OneShotB0 ||| ReadIcr0 ||| ClearIcr0 |||
  SetIcr0 ||| TODInt0 ||| Cnt0 ||| SerInt0 ||| SerLoad0 ||| SerClk0 |||
  SetCntFlip0 ||| SetCnt0

/-- CIA.h line 90: the bitwise complement (on a 64-bit word) of the union
of the stage-0 event bits. -/
def DelayMask : Nat := (2 ^ 64 - 1) ^^^ delayStageZeroEvents

/-! The per-chip state: the data members of class CIA (CIA.h lines
99-220).  The TOD sub-object (class TOD, whose header is not part of the
sources at hand) is never touched by the operations below and is kept as
an opaque Nat placeholder. -/

structure CIAState where
  SDR : Nat
  serClk : Bool
  serCounter : Nat
  serial_int_count : Nat
  f_cnt_out : Bool
  todAlarm : Bool
  counterA : Nat
  latchA : Nat
  counterB : Nat
  latchB : Nat
  tod : Nat
  delay : Nat
  feed : Nat
  CRA : Nat
  CRB : Nat
  ICR : Nat
  IMR : Nat
  PB67TimerMode : Nat
  PB67TimerOut : Nat
  PB67Toggle : Nat
  PALatch : Nat
  PBLatch : Nat
  DDRA : Nat
  DDRB : Nat
  PA : Nat
  PB : Nat
  CNT : Bool
  INT : Bool
  deriving Repr, DecidableEq

/-! Address-range constants and predicates (CIA.h lines 124-127, 230,
551-554, 582-583, 615-618, 640-641). -/

def CIA_START_ADDR : Nat := 0xDC00
def CIA_END_ADDR : Nat := 0xDDFF
def CIA1_START_ADDR : Nat := 0xDC00
def CIA1_END_ADDR : Nat := 0xDCFF
def CIA2_START_ADDR : Nat := 0xDD00
def CIA2_END_ADDR : Nat := 0xDDFF

/-- CIA.h line 230: true if addr lies in the I/O range of one of the two
CIA chips. -/
def isCiaAddr (addr : Nat) : Bool :=
  decide (CIA_START_ADDR ≤ addr ∧ addr ≤ CIA_END_ADDR)

/-- CIA.h lines 582-583: true if addr lies in the I/O range of CIA 1. -/
def isCia1Addr (addr : Nat) : Bool :=
  decide (CIA1_START_ADDR ≤ addr ∧ addr ≤ CIA1_END_ADDR)

/-- CIA.h lines 640-641: true if addr lies in the I/O range of CIA 2. -/
def isCia2Addr (addr : Nat) : Bool :=
  decide (CIA2_START_ADDR ≤ addr ∧ addr ≤ CIA2_END_ADDR)

/-! Interrupt control accessors (CIA.h lines 287-332).  A C++ `return
X & mask;` with result type bool is embedded as the Bool `(X &&& mask)
!= 0`. -/

def isInterruptEnabledA (s : CIAState) : Bool := (s.IMR &&& 0x01) != 0

def setInterruptEnabledA (b : Bool) (s : CIAState) : CIAState :=
  if b then { s with IMR := s.IMR ||| 0x01 }
  else { s with IMR := s.IMR &&& (0xFF - 0x01) }

def toggleInterruptEnableFlagA (s : CIAState) : CIAState :=
  setInterruptEnabledA (!(isInterruptEnabledA s)) s

def isSignalPendingA (s : CIAState) : Bool := (s.ICR &&& 0x01) != 0

def setSignalPendingA (b : Bool) (s : CIAState) : CIAState :=
  if b then { s with ICR := s.ICR ||| 0x01 }
  else { s with ICR := s.ICR &&& (0xFF - 0x01) }

def togglePendingSignalFlagA (s : CIAState) : CIAState :=
  setSignalPendingA (!(isSignalPendingA s)) s

def isInterruptEnabledB (s : CIAState) : Bool := (s.IMR &&& 0x02) != 0

def setInterruptEnabledB (b : Bool) (s : CIAState) : CIAState :=
  if b then { s with IMR := s.IMR ||| 0x02 }
  else { s with IMR := s.IMR &&& (0xFF - 0x02) }

def toggleInterruptEnableFlagB (s : CIAState) : CIAState :=
  setInterruptEnabledB (!(isInterruptEnabledB s)) s

def isSignalPendingB (s : CIAState) : Bool := (s.ICR &&& 0x02) != 0

def setSignalPendingB (b : Bool) (s : CIAState) : CIAState :=
  if b then { s with ICR := s.ICR ||| 0x02 }
  else { s with ICR := s.ICR &&& (0xFF - 0x02) }

def togglePendingSignalFlagB (s : CIAState) : CIAState :=
  setSignalPendingB (!(isSignalPendingB s)) s

/-- CIA.h line 323: note that the source reads ICR here, not IMR. -/
def isInterruptEnabledTOD (s : CIAState) : Bool := (s.ICR &&& 0x04) != 0

/-- CIA.h line 326: note that the source writes ICR here, not IMR. -/
def setInterruptEnabledTOD (b : Bool) (s : CIAState) : CIAState :=
  if b then { s with ICR := s.ICR ||| 0x04 }
  else { s with ICR := s.ICR &&& (0xFF - 0x04) }

/-- CIA.h line 329: note that the source reads ICR here, not IMR. -/
def isInterruptEnabledFlg (s : CIAState) : Bool := (s.ICR &&& 0x10) != 0

/-- CIA.h line 332: note that the source writes ICR here, not IMR. -/
def setInterruptEnabledFlg (b : Bool) (s : CIAState) : CIAState :=
  if b then { s with ICR := s.ICR ||| 0x10 }
  else { s with ICR := s.ICR &&& (0xFF - 0x10) }

/-! Timer A accessors (CIA.h lines 338-420). -/

def getLatchA (s : CIAState) : Nat := s.latchA

def setLatchA (value : Nat) (s : CIAState) : CIAState := { s with latchA := value }

def getLatchALo (s : CIAState) : Nat := s.latchA &&& 0xFF

def setLatchALo (value : Nat) (s : CIAState) : CIAState :=
  { s with latchA := (s.latchA &&& 0xFF00) ||| value }

def getLatchAHi (s : CIAState) : Nat := (s.latchA >>> 8) &&& 0xFF

def setLatchAHi (value : Nat) (s : CIAState) : CIAState :=
  { s with latchA := (value <<< 8) ||| (s.latchA &&& 0xFF) }

def getCounterA (s : CIAState) : Nat := s.counterA

def setCounterA (value : Nat) (s : CIAState) : CIAState := { s with counterA := value }

def getCounterALo (s : CIAState) : Nat := s.counterA &&& 0xFF

def setCounterALo (value : Nat) (s : CIAState) : CIAState :=
  { s with counterA := (s.counterA &&& 0xFF00) ||| value }

def getCounterAHi (s : CIAState) : Nat := (s.counterA >>> 8) &&& 0xFF

def setCounterAHi (value : Nat) (s : CIAState) : CIAState :=
  { s with counterA := (value <<< 8) ||| (s.counterA &&& 0xFF) }

/-- CIA.h line 378: counterA = latchA; delay &= ~CountA2. -/
def reloadTimerA (s : CIAState) : CIAState :=
  { s with counterA := s.latchA,
           delay := s.delay &&& ((2 ^ 64 - 1) ^^^ CountA2) }

def isStartedA (s : CIAState) : Bool := (s.CRA &&& 0x01) != 0

def setStartedA (b : Bool) (s : CIAState) : CIAState :=
  if b then { s with CRA := s.CRA ||| 0x01 } else { s with CRA := s.CRA &&& 0xFE }

def toggleStartFlagA (s : CIAState) : CIAState :=
  setStartedA (!(isStartedA s)) s

def forceLoadStrobeA (s : CIAState) : Bool := (s.CRA &&& 0x10) != 0

def willIndicateUnderflowA (s : CIAState) : Bool := (s.CRA &&& 0x02) != 0

def setIndicateUnderflowA (b : Bool) (s : CIAState) : CIAState :=
  if b then { s with CRA := s.CRA ||| 0x02 }
  else { s with CRA := s.CRA &&& (0xFF - 0x02) }

def toggleUnderflowFlagA (s : CIAState) : CIAState :=
  setIndicateUnderflowA (!(willIndicateUnderflowA s)) s

def isOneShotA (s : CIAState) : Bool := (s.CRA &&& 0x08) != 0

def setOneShotA (b : Bool) (s : CIAState) : CIAState :=
  if b then { s with CRA := s.CRA ||| 0x08 }
  else { s with CRA := s.CRA &&& (0xFF - 0x08) }

def toggleOneShotFlagA (s : CIAState) : CIAState :=
  setOneShotA (!(isOneShotA s)) s

/-- CIA.h line 414: (CRA & 0x20) == 0x00. -/
def isCountingClockTicksA (s : CIAState) : Bool := (s.CRA &&& 0x20) == 0x00

/-- CIA.h line 417: C++ declares the result type bool, so the returned
value is the truth value of CRA, not CRA itself. -/
def getControlRegA (s : CIAState) : Bool := s.CRA != 0

def setControlRegA (value : Nat) (s : CIAState) : CIAState := { s with CRA := value }

/-! Timer B accessors (CIA.h lines 427-508). -/

def getLatchB (s : CIAState) : Nat := s.latchB

def setLatchB (value : Nat) (s : CIAState) : CIAState := { s with latchB := value }

def getLatchBLo (s : CIAState) : Nat := s.latchB &&& 0xFF

def setLatchBLo (value : Nat) (s : CIAState) : CIAState :=
  { s with latchB := (s.latchB &&& 0xFF00) ||| value }

def getLatchBHi (s : CIAState) : Nat := (s.latchB >>> 8) &&& 0xFF

def setLatchBHi (value : Nat) (s : CIAState) : CIAState :=
  { s with latchB := (value <<< 8) ||| (s.latchB &&& 0xFF) }

def getCounterB (s : CIAState) : Nat := s.counterB

def setCounterB (value : Nat) (s : CIAState) : CIAState := { s with counterB := value }

def getCounterBLo (s : CIAState) : Nat := s.counterB &&& 0xFF

def setCounterBLo (value : Nat) (s : CIAState) : CIAState :=
  { s with counterB := (s.counterB &&& 0xFF00) ||| value }

def getCounterBHi (s : CIAState) : Nat := (s.counterB >>> 8) &&& 0xFF

def setCounterBHi (value : Nat) (s : CIAState) : CIAState :=
  { s with counterB := (value <<< 8) ||| (s.counterB &&& 0xFF) }

/-- CIA.h line 466: counterB = latchB; delay &= ~CountB2. -/
def reloadTimerB (s : CIAState) : CIAState :=
  { s with counterB := s.latchB,
           delay := s.delay &&& ((2 ^ 64 - 1) ^^^ CountB2) }

def isStartedB (s : CIAState) : Bool := (s.CRB &&& 0x01) != 0

def setStartedB (b : Bool) (s : CIAState) : CIAState :=
  if b then { s with CRB := s.CRB ||| 0x01 } else { s with CRB := s.CRB &&& 0xFE }

def toggleStartFlagB (s : CIAState) : CIAState :=
  setStartedB (!(isStartedB s)) s

def forceLoadStrobeB (s : CIAState) : Bool := (s.CRB &&& 0x10) != 0

def willIndicateUnderflowB (s : CIAState) : Bool := (s.CRB &&& 0x02) != 0

def setIndicateUnderflowB (b : Bool) (s : CIAState) : CIAState :=
  if b then { s with CRB := s.CRB ||| 0x02 }
  else { s with CRB := s.CRB &&& (0xFF - 0x02) }

def toggleUnderflowFlagB (s : CIAState) : CIAState :=
  setIndicateUnderflowB (!(willIndicateUnderflowB s)) s

def isOneShotB (s : CIAState) : Bool := (s.CRB &&& 0x08) != 0

def setOneShotB (b : Bool) (s : CIAState) : CIAState :=
  if b then { s with CRB := s.CRB ||| 0x08 }
  else { s with CRB := s.CRB &&& (0xFF - 0x08) }

def toggleOneShotFlagB (s : CIAState) : CIAState :=
  setOneShotB (!(isOneShotB s)) s

/-- CIA.h line 502: (CRB & 0x20) == 0x00; only bit 5 is inspected. -/
def isCountingClockTicksB (s : CIAState) : Bool := (s.CRB &&& 0x20) == 0x00

/-- CIA.h line 505: C++ declares the result type bool, so the returned
value is the truth value of CRB, not CRB itself. -/
def getControlRegB (s : CIAState) : Bool := s.CRB != 0

def setControlRegB (value : Nat) (s : CIAState) : CIAState := { s with CRB := value }

/-- Modelled from the spec: the delay-pipeline shift step performed once
per cycle by CIA::executeOneCycle, whose implementation file (CIA.cpp)
is not among the sources at hand.  Spec section 9 gives the statement
literally: each cycle executes the C line
  delay = (delay << 1) & DelayMask | feed;
which by C precedence is ((delay << 1) & DelayMask) | feed, computed on
64-bit words. -/
def tickDelay (delay feed : Nat) : Nat :=
  (((delay <<< 1) % 2 ^ 64) &&& DelayMask) ||| feed

/-- The delay update equation in the form claim C1 and spec section 8
state it: the mask is applied to the feed instead of to the shifted
delay word.  Defined only for comparison with tickDelay. -/
def claimedTickDelay (delay feed : Nat) : Nat :=
  ((delay <<< 1) % 2 ^ 64) ||| (feed &&& DelayMask)

/-- A concrete CIA state used as a test vector by witnesses and
counterexamples. -/
def sampleState : CIAState where
  SDR := 0
  serClk := false
  serCounter := 0
  serial_int_count := 0
  f_cnt_out := false
  todAlarm := false
  counterA := 0x1234
  latchA := 0x5678
  counterB := 0x9ABC
  latchB := 0xDEF0
  tod := 0
  delay := 0
  feed := 0
  CRA := 0
  CRB := 0
  ICR := 0
  IMR := 0
  PB67TimerMode := 0
  PB67TimerOut := 0
  PB67Toggle := 0
  PALatch := 0
  PBLatch := 0
  DDRA := 0
  DDRB := 0
  PA := 0
  PB := 0
  CNT := false
  INT := true

/-! Bitwise toolkit: general facts about Nat bitwise operators, proved
by testBit extensionality. -/

theorem lor_land (a b c : Nat) : (a ||| b) &&& c = (a &&& c) ||| (b &&& c) := by
  apply Nat.eq_of_testBit_eq
  intro i
  simp only [Nat.testBit_and, Nat.testBit_or]
  cases a.testBit i <;> cases b.testBit i <;> cases c.testBit i <;> rfl

theorem lor_shiftRight (a b n : Nat) : (a ||| b) >>> n = (a >>> n) ||| (b >>> n) := by
  apply Nat.eq_of_testBit_eq
  intro i
  simp only [Nat.testBit_or, Nat.testBit_shiftRight]

theorem land_ff_eq_of_lt (v : Nat) (h : v < 256) : v &&& 0xFF = v := by
  apply Nat.eq_of_testBit_eq
  intro i
  rw [Nat.testBit_and]
  by_cases hi : i < 8
  · have hff : (0xFF : Nat).testBit i = true := by
      have h255 : (0xFF : Nat) = 2 ^ 8 - 1 := by norm_num
      rw [h255, Nat.testBit_two_pow_sub_one]
      simpa using hi
    simp [hff]
  · have hv : v.testBit i = false := by
      apply Nat.testBit_lt_two_pow
      calc v < 256 := h
      _ = 2 ^ 8 := by norm_num
      _ ≤ 2 ^ i := Nat.pow_le_pow_right (by norm_num) (le_of_not_lt hi)
    simp [hv]

theorem land_ff00_land_ff (L : Nat) : (L &&& 0xFF00) &&& 0xFF = 0 := by
  have h0 : (0xFF00 : Nat) &&& 0xFF = 0 := by decide
  rw [Nat.and_assoc, h0, Nat.and_zero]

theorem land_ff00_shiftRight (L : Nat) : (L &&& 0xFF00) >>> 8 = (L >>> 8) &&& 0xFF := by
  apply Nat.eq_of_testBit_eq
  intro i
  rw [Nat.testBit_shiftRight, Nat.testBit_and, Nat.testBit_and, Nat.testBit_shiftRight]
  have hmask : (0xFF00 : Nat) = 0xFF <<< 8 := by norm_num [Nat.shiftLeft_eq]
  rw [hmask, Nat.testBit_shiftLeft]
  simp

theorem shiftLeft8_shiftRight8 (v : Nat) : (v <<< 8) >>> 8 = v := by
  rw [Nat.shiftLeft_eq, Nat.shiftRight_eq_div_pow]
  exact Nat.mul_div_cancel v (by norm_num)

theorem shiftLeft8_land_ff (v : Nat) : (v <<< 8) &&& 0xFF = 0 := by
  apply Nat.eq_of_testBit_eq
  intro i
  rw [Nat.testBit_and, Nat.testBit_shiftLeft]
  by_cases hi : i < 8
  · have : decide (i ≥ 8) = false := by simpa using hi
    simp [this]
  · have hff : (0xFF : Nat).testBit i = false := by
      apply Nat.testBit_lt_two_pow
      calc (0xFF : Nat) < 2 ^ 8 := by norm_num
      _ ≤ 2 ^ i := Nat.pow_le_pow_right (by norm_num) (le_of_not_lt hi)
    simp [hff]

theorem land_ff_lt (L : Nat) : L &&& 0xFF < 256 :=
  lt_of_le_of_lt Nat.and_le_right (by norm_num)

theorem land_ff_shiftRight8 (L : Nat) : (L &&& 0xFF) >>> 8 = 0 := by
  rw [Nat.shiftRight_eq_div_pow]
  exact Nat.div_eq_of_lt (lt_of_lt_of_le (land_ff_lt L) (by norm_num))

theorem land_not_two_pow_testBit (d k i : Nat) (hd : d < 2 ^ 64) :
    (d &&& ((2 ^ 64 - 1) ^^^ 2 ^ k)).testBit i = (d.testBit i && decide (i ≠ k)) := by
  rw [Nat.testBit_and, Nat.testBit_xor, Nat.testBit_two_pow_sub_one, Nat.testBit_two_pow]
  by_cases h64 : i < 64
  · by_cases hik : k = i
    · subst hik
      simp [h64]
    · simp [h64, hik, Ne.symm hik]
  · have hdi : d.testBit i = false :=
      Nat.testBit_lt_two_pow
        (lt_of_lt_of_le hd (Nat.pow_le_pow_right (by norm_num) (le_of_not_lt h64)))
    simp [hdi]

/-! Byte-level laws for the half-latch accessors. -/

theorem setLo_getLo (L v : Nat) (h : v < 256) : ((L &&& 0xFF00) ||| v) &&& 0xFF = v := by
  rw [lor_land, land_ff00_land_ff, land_ff_eq_of_lt v h, Nat.zero_or]

theorem setLo_getHi (L v : Nat) (h : v < 256) :
    (((L &&& 0xFF00) ||| v) >>> 8) &&& 0xFF = (L >>> 8) &&& 0xFF := by
  rw [lor_shiftRight, land_ff00_shiftRight]
  have hv : v >>> 8 = 0 := by
    rw [Nat.shiftRight_eq_div_pow]
    exact Nat.div_eq_of_lt (lt_of_lt_of_le h (by norm_num))
  rw [hv, Nat.or_zero]
  exact land_ff_eq_of_lt _ (land_ff_lt _)

theorem setHi_getHi (L v : Nat) (h : v < 256) :
    (((v <<< 8) ||| (L &&& 0xFF)) >>> 8) &&& 0xFF = v := by
  rw [lor_shiftRight, shiftLeft8_shiftRight8, land_ff_shiftRight8, Nat.or_zero]
  exact land_ff_eq_of_lt v h

theorem setHi_getLo (L v : Nat) : ((v <<< 8) ||| (L &&& 0xFF)) &&& 0xFF = L &&& 0xFF := by
  rw [lor_land, shiftLeft8_land_ff, Nat.zero_or, Nat.and_assoc]
  have hff : (0xFF : Nat) &&& 0xFF = 0xFF := by decide
  rw [hff]

/-! Byte-level laws for the single-bit set and clear operations used by
the toggle helpers: on a value below 256, setting a clear bit or
clearing a set bit is an xor with that bit. -/

set_option maxRecDepth 10000 in
theorem byte_or1_eq_xor : ∀ r, r < 256 → r &&& 0x01 = 0 → r ||| 0x01 = r ^^^ 0x01 := by
  decide

set_option maxRecDepth 10000 in
theorem byte_andFE_eq_xor : ∀ r, r < 256 → r &&& 0x01 ≠ 0 → r &&& 0xFE = r ^^^ 0x01 := by
  decide

set_option maxRecDepth 10000 in
theorem byte_andFF1_eq_xor : ∀ r, r < 256 → r &&& 0x01 ≠ 0 → r &&& (0xFF - 0x01) = r ^^^ 0x01 := by
  decide

set_option maxRecDepth 10000 in
theorem byte_or2_eq_xor : ∀ r, r < 256 → r &&& 0x02 = 0 → r ||| 0x02 = r ^^^ 0x02 := by
  decide

set_option maxRecDepth 10000 in
theorem byte_andFF2_eq_xor : ∀ r, r < 256 → r &&& 0x02 ≠ 0 → r &&& (0xFF - 0x02) = r ^^^ 0x02 := by
  decide

set_option maxRecDepth 10000 in
theorem byte_or8_eq_xor : ∀ r, r < 256 → r &&& 0x08 = 0 → r ||| 0x08 = r ^^^ 0x08 := by
  decide

set_option maxRecDepth 10000 in
theorem byte_andFF8_eq_xor : ∀ r, r < 256 → r &&& 0x08 ≠ 0 → r &&& (0xFF - 0x08) = r ^^^ 0x08 := by
  decide

set_option maxRecDepth 10000 in
theorem byte_xor1_lt : ∀ r, r < 256 → r ^^^ 0x01 < 256 := by
  decide

set_option maxRecDepth 10000 in
theorem byte_xor2_lt : ∀ r, r < 256 → r ^^^ 0x02 < 256 := by
  decide

set_option maxRecDepth 10000 in
theorem byte_xor8_lt : ∀ r, r < 256 → r ^^^ 0x08 < 256 := by
  decide

/-! Single-flip characterizations of the ten toggle helpers. -/

theorem toggleStartFlagA_flip (s : CIAState) (h : s.CRA < 256) :
    toggleStartFlagA s = { s with CRA := s.CRA ^^^ 0x01 } := by
  unfold toggleStartFlagA setStartedA isStartedA
  split
  next hcond =>
    have hb : s.CRA &&& 0x01 = 0 := by simpa using hcond
    rw [byte_or1_eq_xor s.CRA h hb]
  next hcond =>
    have hb : s.CRA &&& 0x01 ≠ 0 := by simpa using hcond
    rw [byte_andFE_eq_xor s.CRA h hb]

theorem toggleUnderflowFlagA_flip (s : CIAState) (h : s.CRA < 256) :
    toggleUnderflowFlagA s = { s with CRA := s.CRA ^^^ 0x02 } := by
  unfold toggleUnderflowFlagA setIndicateUnderflowA willIndicateUnderflowA
  split
  next hcond =>
    have hb : s.CRA &&& 0x02 = 0 := by simpa using hcond
    rw [byte_or2_eq_xor s.CRA h hb]
  next hcond =>
    have hb : s.CRA &&& 0x02 ≠ 0 := by simpa using hcond
    rw [byte_andFF2_eq_xor s.CRA h hb]

theorem toggleOneShotFlagA_flip (s : CIAState) (h : s.CRA < 256) :
    toggleOneShotFlagA s = { s with CRA := s.CRA ^^^ 0x08 } := by
  unfold toggleOneShotFlagA setOneShotA isOneShotA
  split
  next hcond =>
    have hb : s.CRA &&& 0x08 = 0 := by simpa using hcond
    rw [byte_or8_eq_xor s.CRA h hb]
  next hcond =>
    have hb : s.CRA &&& 0x08 ≠ 0 := by simpa using hcond
    rw [byte_andFF8_eq_xor s.CRA h hb]

theorem toggleInterruptEnableFlagA_flip (s : CIAState) (h : s.IMR < 256) :
    toggleInterruptEnableFlagA s = { s with IMR := s.IMR ^^^ 0x01 } := by
  unfold toggleInterruptEnableFlagA setInterruptEnabledA isInterruptEnabledA
  split
  next hcond =>
    have hb : s.IMR &&& 0x01 = 0 := by simpa using hcond
    rw [byte_or1_eq_xor s.IMR h hb]
  next hcond =>
    have hb : s.IMR &&& 0x01 ≠ 0 := by simpa using hcond
    rw [byte_andFF1_eq_xor s.IMR h hb]

theorem togglePendingSignalFlagA_flip (s : CIAState) (h : s.ICR < 256) :
    togglePendingSignalFlagA s = { s with ICR := s.ICR ^^^ 0x01 } := by
  unfold togglePendingSignalFlagA setSignalPendingA isSignalPendingA
  split
  next hcond =>
    have hb : s.ICR &&& 0x01 = 0 := by simpa using hcond
    rw [byte_or1_eq_xor s.ICR h hb]
  next hcond =>
    have hb : s.ICR &&& 0x01 ≠ 0 := by simpa using hcond
    rw [byte_andFF1_eq_xor s.ICR h hb]

theorem toggleStartFlagB_flip (s : CIAState) (h : s.CRB < 256) :
    toggleStartFlagB s = { s with CRB := s.CRB ^^^ 0x01 } := by
  unfold toggleStartFlagB setStartedB isStartedB
  split
  next hcond =>
    have hb : s.CRB &&& 0x01 = 0 := by simpa using hcond
    rw [byte_or1_eq_xor s.CRB h hb]
  next hcond =>
    have hb : s.CRB &&& 0x01 ≠ 0 := by simpa using hcond
    rw [byte_andFE_eq_xor s.CRB h hb]

theorem toggleUnderflowFlagB_flip (s : CIAState) (h : s.CRB < 256) :
    toggleUnderflowFlagB s = { s with CRB := s.CRB ^^^ 0x02 } := by
  unfold toggleUnderflowFlagB setIndicateUnderflowB willIndicateUnderflowB
  split
  next hcond =>
    have hb : s.CRB &&& 0x02 = 0 := by simpa using hcond
    rw [byte_or2_eq_xor s.CRB h hb]
  next hcond =>
    have hb : s.CRB &&& 0x02 ≠ 0 := by simpa using hcond
    rw [byte_andFF2_eq_xor s.CRB h hb]

theorem toggleOneShotFlagB_flip (s : CIAState) (h : s.CRB < 256) :
    toggleOneShotFlagB s = { s with CRB := s.CRB ^^^ 0x08 } := by
  unfold toggleOneShotFlagB setOneShotB isOneShotB
  split
  next hcond =>
    have hb : s.CRB &&& 0x08 = 0 := by simpa using hcond
    rw [byte_or8_eq_xor s.CRB h hb]
  next hcond =>
    have hb : s.CRB &&& 0x08 ≠ 0 := by simpa using hcond
    rw [byte_andFF8_eq_xor s.CRB h hb]

theorem toggleInterruptEnableFlagB_flip (s : CIAState) (h : s.IMR < 256) :
    toggleInterruptEnableFlagB s = { s with IMR := s.IMR ^^^ 0x02 } := by
  unfold toggleInterruptEnableFlagB setInterruptEnabledB isInterruptEnabledB
  split
  next hcond =>
    have hb : s.IMR &&& 0x02 = 0 := by simpa using hcond
    rw [byte_or2_eq_xor s.IMR h hb]
  next hcond =>
    have hb : s.IMR &&& 0x02 ≠ 0 := by simpa using hcond
    rw [byte_andFF2_eq_xor s.IMR h hb]

theorem togglePendingSignalFlagB_flip (s : CIAState) (h : s.ICR < 256) :
    togglePendingSignalFlagB s = { s with ICR := s.ICR ^^^ 0x02 } := by
  unfold togglePendingSignalFlagB setSignalPendingB isSignalPendingB
  split
  next hcond =>
    have hb : s.ICR &&& 0x02 = 0 := by simpa using hcond
    rw [byte_or2_eq_xor s.ICR h hb]
  next hcond =>
    have hb : s.ICR &&& 0x02 ≠ 0 := by simpa using hcond
    rw [byte_andFF2_eq_xor s.ICR h hb]

/-! Lists of the delay-pipeline event constants, for claim C8. -/

/-- All 50 event constants defined in CIA.h lines 34-86, in source
order. -/
def delayEventBits : List Nat :=
  [CountA0, CountA1, CountA2, CountA3, CountB0, CountB1, CountB2, CountB3,
   LoadA0, LoadA1, LoadA2, LoadB0, LoadB1, LoadB2,
   PB6Low0, PB6Low1, PB7Low0, PB7Low1, Interrupt0, Interrupt1,
   OneShotA0, OneShotB0, ReadIcr0, ReadIcr1, ClearIcr0, ClearIcr1, ClearIcr2,
   SetIcr0, SetIcr1, TODInt0,
   Cnt0, Cnt1, Cnt2, SerInt0, SerInt1, SerInt2, SerLoad0, SerLoad1,
   SerClk0, SerClk1, SerClk2, SerClk3,
   SetCntFlip0, SetCntFlip1, SetCntFlip2, SetCntFlip3,
   SetCnt0, SetCnt1, SetCnt2, SetCnt3]

/-- The 19 stage-0 constants named in the DelayMask definition. -/
def delayStageZeroList : List Nat :=
  [CountA0, CountB0, LoadA0, LoadB0, PB6Low0, PB7Low0, Interrupt0,
   OneShotA0, OneShotB0, ReadIcr0, ClearIcr0, SetIcr0, TODInt0,
   Cnt0, SerInt0, SerLoad0, SerClk0, SetCntFlip0, SetCnt0]

/-- The remaining 31 constants (stage 1 and later). -/
def delayLaterStageList : List Nat :=
  [CountA1, CountA2, CountA3, CountB1, CountB2, CountB3,
   LoadA1, LoadA2, LoadB1, LoadB2, PB6Low1, PB7Low1, Interrupt1,
   ReadIcr1, ClearIcr1, ClearIcr2, SetIcr1, Cnt1, Cnt2,
   SerInt1, SerInt2, SerLoad1, SerClk1, SerClk2, SerClk3,
   SetCntFlip1, SetCntFlip2, SetCntFlip3, SetCnt1, SetCnt2, SetCnt3]

/-- Claim C8: the delay-pipeline event constants are pairwise distinct
single-bit values of a 64-bit word, and DelayMask is exactly the
complement of the union of the 19 stage-0 event bits, so AND-ing with
DelayMask clears every stage-0 bit and leaves every other event bit
unchanged. -/
theorem delay_event_bits_distinct_and_mask :
    delayEventBits.Nodup ∧
    (∀ e ∈ delayEventBits, e ∈ (List.range 64).map (fun k => 2 ^ k)) ∧
    DelayMask ^^^ delayStageZeroEvents = 2 ^ 64 - 1 ∧
    DelayMask &&& delayStageZeroEvents = 0 ∧
    (∀ e ∈ delayStageZeroList, e &&& DelayMask = 0) ∧
    (∀ e ∈ delayLaterStageList, e &&& DelayMask = e) := by
  decide

/-- Claim C1 (counterexample): with the previous delay word 0 and the
feed word CountA0 (the feed produced whenever Timer A runs on the clock
source), the pipeline shift step yields CountA0, while the formula
stated by the claim, which masks the feed instead of the shifted delay,
yields 0. -/
theorem tickDelay_formula_counterexample :
    tickDelay 0 CountA0 = CountA0 ∧
    claimedTickDelay 0 CountA0 = 0 ∧
    tickDelay 0 CountA0 ≠ claimedTickDelay 0 CountA0 := by
  decide

/-- Claim C1 (amended): the delay word after the per-cycle shift step is
((delay << 1) mod 2^64 AND DelayMask) OR feed — the mask applies to the
shifted delay word, not to the feed.  Stated bit by bit: bit i of the
new word is set iff either bit i-1 of the old word was set, 1 ≤ i < 64,
and i is not a stage-0 event position, or bit i of the feed is set. -/
theorem tickDelay_shift_mask_feed (d f i : Nat) :
    (tickDelay d f).testBit i =
      ((decide (1 ≤ i) && decide (i < 64) && d.testBit (i - 1) &&
        !(delayStageZeroEvents.testBit i)) || f.testBit i) := by
  unfold tickDelay DelayMask
  rw [Nat.testBit_or, Nat.testBit_and, Nat.testBit_mod_two_pow,
    Nat.testBit_shiftLeft, Nat.testBit_xor, Nat.testBit_two_pow_sub_one]
  simp only [ge_iff_le]
  by_cases h64 : i < 64 <;> by_cases h1 : 1 ≤ i <;>
    simp only [h64, h1, decide_True, decide_False, Bool.true_and,
      Bool.false_and, Bool.and_true, Bool.and_false, Bool.true_xor,
      Bool.false_xor, Bool.not_true, Bool.not_false, Bool.false_or,
      Bool.or_false]

/-- Claim C2 (evaluation at the failing input): starting from a state
with ICR = 0 and IMR = 0, setInterruptEnabledTOD true sets bit 0x04 of
ICR and leaves IMR at 0, and setInterruptEnabledFlg true sets bit 0x10
of ICR and leaves IMR at 0 — the opposite of the claimed effect on the
two registers.  The read accessors likewise report the ICR bits. -/
theorem interruptEnabledTOD_Flg_use_ICR :
    (setInterruptEnabledTOD true sampleState).ICR = 0x04 ∧
    (setInterruptEnabledTOD true sampleState).IMR = 0x00 ∧
    isInterruptEnabledTOD (setInterruptEnabledTOD true sampleState) = true ∧
    (setInterruptEnabledFlg true sampleState).ICR = 0x10 ∧
    (setInterruptEnabledFlg true sampleState).IMR = 0x00 ∧
    isInterruptEnabledFlg (setInterruptEnabledFlg true sampleState) = true := by
  decide

/-- Claim C4 (evaluation at the failing input): with CRB = 0x40 the
source selector CRB[5..6] is 10 (count Timer-A underflows), yet
isCountingClockTicksB returns true, because the code inspects only bit
5. -/
theorem isCountingClockTicksB_ignores_bit6 :
    ({ sampleState with CRB := 0x40 } : CIAState).CRB &&& 0x60 = 0x40 ∧
    isCountingClockTicksB { sampleState with CRB := 0x40 } = true := by
  decide

/-- Claim C6: for every 16-bit address, isCiaAddr holds exactly on
0xDC00..0xDDFF, isCia1Addr exactly on the 256-byte window
0xDC00..0xDCFF, isCia2Addr exactly on the 256-byte window
0xDD00..0xDDFF, the CIA range is the union of the two windows, and the
two windows are disjoint. -/
theorem cia_addr_window_partition (a : Nat) (h : a < 65536) :
    (isCiaAddr a = true ↔ 0xDC00 ≤ a ∧ a ≤ 0xDDFF) ∧
    (isCia1Addr a = true ↔ 0xDC00 ≤ a ∧ a ≤ 0xDCFF) ∧
    (isCia2Addr a = true ↔ 0xDD00 ≤ a ∧ a ≤ 0xDDFF) ∧
    (isCiaAddr a = true ↔ (isCia1Addr a = true ∨ isCia2Addr a = true)) ∧
    ¬(isCia1Addr a = true ∧ isCia2Addr a = true) := by
  refine ⟨?_, ?_, ?_, ?_, ?_⟩ <;>
    simp only [isCiaAddr, isCia1Addr, isCia2Addr, CIA_START_ADDR, CIA_END_ADDR,
      CIA1_START_ADDR, CIA1_END_ADDR, CIA2_START_ADDR, CIA2_END_ADDR,
      decide_eq_true_eq] <;>
    omega

/-- Claim C6 (witness): instantiation at address 0xDC05. -/
theorem cia_addr_window_partition_witness :
    (0xDC05 : Nat) < 65536 ∧
    ((isCiaAddr 0xDC05 = true ↔ 0xDC00 ≤ (0xDC05 : Nat) ∧ (0xDC05 : Nat) ≤ 0xDDFF) ∧
     (isCia1Addr 0xDC05 = true ↔ 0xDC00 ≤ (0xDC05 : Nat) ∧ (0xDC05 : Nat) ≤ 0xDCFF) ∧
     (isCia2Addr 0xDC05 = true ↔ 0xDD00 ≤ (0xDC05 : Nat) ∧ (0xDC05 : Nat) ≤ 0xDDFF) ∧
     (isCiaAddr 0xDC05 = true ↔ (isCia1Addr 0xDC05 = true ∨ isCia2Addr 0xDC05 = true)) ∧
     ¬(isCia1Addr 0xDC05 = true ∧ isCia2Addr 0xDC05 = true)) :=
  ⟨by decide, cia_addr_window_partition 0xDC05 (by decide)⟩

/-- Claim C9: the control-register read accessors have result type bool,
so after setControlRegA v the read returns the truth value of v (1
exactly when v is nonzero), and the numeric round trip succeeds only for
v in 0 and 1; the same holds for the B register. -/
theorem controlReg_read_truncates_to_bool (s : CIAState) (v : Nat) :
    (getControlRegA (setControlRegA v s) = true ↔ v ≠ 0) ∧
    ((cond (getControlRegA (setControlRegA v s)) 1 0 = v) ↔ (v = 0 ∨ v = 1)) ∧
    (getControlRegB (setControlRegB v s) = true ↔ v ≠ 0) ∧
    ((cond (getControlRegB (setControlRegB v s)) 1 0 = v) ↔ (v = 0 ∨ v = 1)) := by
  simp only [getControlRegA, setControlRegA, getControlRegB, setControlRegB]
  by_cases hv : v = 0
  · subst hv
    simp
  · have hb : (v != 0) = true := by simpa [bne_iff_ne] using hv
    rw [hb]
    simp only [cond_true]
    exact ⟨by simp [hv], by omega, by simp [hv], by omega⟩

/-- Claim C5: reloadTimerA copies latchA into counterA and clears
exactly the CountA2 bit (bit 2) of the delay word, leaving every other
delay bit, the feed word, the other counter, both latches and all
registers unchanged; reloadTimerB symmetrically copies latchB into
counterB and clears exactly CountB2 (bit 6). -/
theorem reloadTimer_effect (s : CIAState) (h : s.delay < 2 ^ 64) :
    ((reloadTimerA s).counterA = s.latchA ∧
     (∀ i, ((reloadTimerA s).delay).testBit i = (s.delay.testBit i && decide (i ≠ 2))) ∧
     (reloadTimerA s).feed = s.feed ∧
     (reloadTimerA s).counterB = s.counterB ∧
     (reloadTimerA s).latchA = s.latchA ∧
     (reloadTimerA s).latchB = s.latchB ∧
     (reloadTimerA s).CRA = s.CRA ∧
     (reloadTimerA s).CRB = s.CRB ∧
     (reloadTimerA s).ICR = s.ICR ∧
     (reloadTimerA s).IMR = s.IMR ∧
     (reloadTimerA s).PB67TimerMode = s.PB67TimerMode ∧
     (reloadTimerA s).PB67TimerOut = s.PB67TimerOut ∧
     (reloadTimerA s).PB67Toggle = s.PB67Toggle ∧
     (reloadTimerA s).PALatch = s.PALatch ∧
     (reloadTimerA s).PBLatch = s.PBLatch ∧
     (reloadTimerA s).DDRA = s.DDRA ∧
     (reloadTimerA s).DDRB = s.DDRB ∧
     (reloadTimerA s).PA = s.PA ∧
     (reloadTimerA s).PB = s.PB ∧
     (reloadTimerA s).SDR = s.SDR ∧
     (reloadTimerA s).serClk = s.serClk ∧
     (reloadTimerA s).serCounter = s.serCounter ∧
     (reloadTimerA s).serial_int_count = s.serial_int_count ∧
     (reloadTimerA s).f_cnt_out = s.f_cnt_out ∧
     (reloadTimerA s).todAlarm = s.todAlarm ∧
     (reloadTimerA s).tod = s.tod ∧
     (reloadTimerA s).CNT = s.CNT ∧
     (reloadTimerA s).INT = s.INT) ∧
    ((reloadTimerB s).counterB = s.latchB ∧
     (∀ i, ((reloadTimerB s).delay).testBit i = (s.delay.testBit i && decide (i ≠ 6))) ∧
     (reloadTimerB s).feed = s.feed ∧
     (reloadTimerB s).counterA = s.counterA ∧
     (reloadTimerB s).latchA = s.latchA ∧
     (reloadTimerB s).latchB = s.latchB ∧
     (reloadTimerB s).CRA = s.CRA ∧
     (reloadTimerB s).CRB = s.CRB ∧
     (reloadTimerB s).ICR = s.ICR ∧
     (reloadTimerB s).IMR = s.IMR ∧
     (reloadTimerB s).PB67TimerMode = s.PB67TimerMode ∧
     (reloadTimerB s).PB67TimerOut = s.PB67TimerOut ∧
     (reloadTimerB s).PB67Toggle = s.PB67Toggle ∧
     (reloadTimerB s).PALatch = s.PALatch ∧
     (reloadTimerB s).PBLatch = s.PBLatch ∧
     (reloadTimerB s).DDRA = s.DDRA ∧
     (reloadTimerB s).DDRB = s.DDRB ∧
     (reloadTimerB s).PA = s.PA ∧
     (reloadTimerB s).PB = s.PB ∧
     (reloadTimerB s).SDR = s.SDR ∧
     (reloadTimerB s).serClk = s.serClk ∧
     (reloadTimerB s).serCounter = s.serCounter ∧
     (reloadTimerB s).serial_int_count = s.serial_int_count ∧
     (reloadTimerB s).f_cnt_out = s.f_cnt_out ∧
     (reloadTimerB s).todAlarm = s.todAlarm ∧
     (reloadTimerB s).tod = s.tod ∧
     (reloadTimerB s).CNT = s.CNT ∧
     (reloadTimerB s).INT = s.INT) := by
  have hA : CountA2 = 2 ^ 2 := by decide
  have hB : CountB2 = 2 ^ 6 := by decide
  constructor
  · refine ⟨rfl, ?_, rfl, rfl, rfl, rfl, rfl, rfl, rfl, rfl, rfl, rfl, rfl, rfl,
      rfl, rfl, rfl, rfl, rfl, rfl, rfl, rfl, rfl, rfl, rfl, rfl, rfl, rfl⟩
    intro i
    show (s.delay &&& ((2 ^ 64 - 1) ^^^ CountA2)).testBit i
        = (s.delay.testBit i && decide (i ≠ 2))
    rw [hA]
    exact land_not_two_pow_testBit s.delay 2 i h
  · refine ⟨rfl, ?_, rfl, rfl, rfl, rfl, rfl, rfl, rfl, rfl, rfl, rfl, rfl, rfl,
      rfl, rfl, rfl, rfl, rfl, rfl, rfl, rfl, rfl, rfl, rfl, rfl, rfl, rfl⟩
    intro i
    show (s.delay &&& ((2 ^ 64 - 1) ^^^ CountB2)).testBit i
        = (s.delay.testBit i && decide (i ≠ 6))
    rw [hB]
    exact land_not_two_pow_testBit s.delay 6 i h

/-- A sample state with a nonzero delay word, used by the C5 witness. -/
def reloadSample : CIAState := { sampleState with delay := 0xFF }

/-- Claim C5 (witness): instantiation at a concrete state with delay
word 0xFF. -/
theorem reloadTimer_effect_witness :
    reloadSample.delay < 2 ^ 64 ∧
    (reloadTimerA reloadSample).counterA = reloadSample.latchA ∧
    ((reloadTimerA reloadSample).delay).testBit 2
      = (reloadSample.delay.testBit 2 && decide ((2 : Nat) ≠ 2)) ∧
    ((reloadTimerB reloadSample).delay).testBit 6
      = (reloadSample.delay.testBit 6 && decide ((6 : Nat) ≠ 6)) := by
  have h := reloadTimer_effect reloadSample (by decide)
  exact ⟨by decide, h.1.1, h.1.2.1 2, h.2.2.1 6⟩

/-- Claim C7: writing either half of a timer latch updates exactly that
half as observed through the read accessors and never changes either
counter: after setLatchALo v, getLatchALo returns v while getLatchAHi,
counterA and counterB are unchanged; after setLatchAHi v, getLatchAHi
returns v while getLatchALo, counterA and counterB are unchanged; and
symmetrically for the Timer B latch. -/
theorem latch_half_write_roundtrip (s : CIAState) (v : Nat) (h : v < 256) :
    getLatchALo (setLatchALo v s) = v ∧
    getLatchAHi (setLatchALo v s) = getLatchAHi s ∧
    (setLatchALo v s).counterA = s.counterA ∧
    (setLatchALo v s).counterB = s.counterB ∧
    getLatchAHi (setLatchAHi v s) = v ∧
    getLatchALo (setLatchAHi v s) = getLatchALo s ∧
    (setLatchAHi v s).counterA = s.counterA ∧
    (setLatchAHi v s).counterB = s.counterB ∧
    getLatchBLo (setLatchBLo v s) = v ∧
    getLatchBHi (setLatchBLo v s) = getLatchBHi s ∧
    (setLatchBLo v s).counterA = s.counterA ∧
    (setLatchBLo v s).counterB = s.counterB ∧
    getLatchBHi (setLatchBHi v s) = v ∧
    getLatchBLo (setLatchBHi v s) = getLatchBLo s ∧
    (setLatchBHi v s).counterA = s.counterA ∧
    (setLatchBHi v s).counterB = s.counterB :=
  ⟨setLo_getLo s.latchA v h, setLo_getHi s.latchA v h, rfl, rfl,
   setHi_getHi s.latchA v h, setHi_getLo s.latchA v, rfl, rfl,
   setLo_getLo s.latchB v h, setLo_getHi s.latchB v h, rfl, rfl,
   setHi_getHi s.latchB v h, setHi_getLo s.latchB v, rfl, rfl⟩

/-- Claim C7 (witness): instantiation at the sample state and the byte
value 0xAB. -/
theorem latch_half_write_roundtrip_witness :
    (0xAB : Nat) < 256 ∧
    getLatchALo (setLatchALo 0xAB sampleState) = 0xAB ∧
    getLatchAHi (setLatchAHi 0xAB sampleState) = 0xAB ∧
    getLatchBLo (setLatchBLo 0xAB sampleState) = 0xAB := by
  have h := latch_half_write_roundtrip sampleState 0xAB (by decide)
  exact ⟨by decide, h.1, h.2.2.2.2.1, h.2.2.2.2.2.2.2.2.1⟩

/-- Claim C10: each of the ten toggle helpers flips exactly one bit of
the register it addresses (start, underflow-indication and one-shot
flags live in CRA and CRB, the interrupt-enable flags in IMR, the
pending-signal flags in ICR) and changes nothing else, and applying any
of them twice restores the whole state. -/
theorem toggle_involutions (s : CIAState) (hCRA : s.CRA < 256) (hCRB : s.CRB < 256)
    (hICR : s.ICR < 256) (hIMR : s.IMR < 256) :
    (toggleStartFlagA s = { s with CRA := s.CRA ^^^ 0x01 } ∧
     toggleStartFlagA (toggleStartFlagA s) = s) ∧
    (toggleUnderflowFlagA s = { s with CRA := s.CRA ^^^ 0x02 } ∧
     toggleUnderflowFlagA (toggleUnderflowFlagA s) = s) ∧
    (toggleOneShotFlagA s = { s with CRA := s.CRA ^^^ 0x08 } ∧
     toggleOneShotFlagA (toggleOneShotFlagA s) = s) ∧
    (toggleInterruptEnableFlagA s = { s with IMR := s.IMR ^^^ 0x01 } ∧
     toggleInterruptEnableFlagA (toggleInterruptEnableFlagA s) = s) ∧
    (togglePendingSignalFlagA s = { s with ICR := s.ICR ^^^ 0x01 } ∧
     togglePendingSignalFlagA (togglePendingSignalFlagA s) = s) ∧
    (toggleStartFlagB s = { s with CRB := s.CRB ^^^ 0x01 } ∧
     toggleStartFlagB (toggleStartFlagB s) = s) ∧
    (toggleUnderflowFlagB s = { s with CRB := s.CRB ^^^ 0x02 } ∧
     toggleUnderflowFlagB (toggleUnderflowFlagB s) = s) ∧
    (toggleOneShotFlagB s = { s with CRB := s.CRB ^^^ 0x08 } ∧
     toggleOneShotFlagB (toggleOneShotFlagB s) = s) ∧
    (toggleInterruptEnableFlagB s = { s with IMR := s.IMR ^^^ 0x02 } ∧
     toggleInterruptEnableFlagB (toggleInterruptEnableFlagB s) = s) ∧
    (togglePendingSignalFlagB s = { s with ICR := s.ICR ^^^ 0x02 } ∧
     togglePendingSignalFlagB (togglePendingSignalFlagB s) = s) := by
  refine ⟨⟨toggleStartFlagA_flip s hCRA, ?_⟩,
    ⟨toggleUnderflowFlagA_flip s hCRA, ?_⟩,
    ⟨toggleOneShotFlagA_flip s hCRA, ?_⟩,
    ⟨toggleInterruptEnableFlagA_flip s hIMR, ?_⟩,
    ⟨togglePendingSignalFlagA_flip s hICR, ?_⟩,
    ⟨toggleStartFlagB_flip s hCRB, ?_⟩,
    ⟨toggleUnderflowFlagB_flip s hCRB, ?_⟩,
    ⟨toggleOneShotFlagB_flip s hCRB, ?_⟩,
    ⟨toggleInterruptEnableFlagB_flip s hIMR, ?_⟩,
    ⟨togglePendingSignalFlagB_flip s hICR, ?_⟩⟩
  · rw [toggleStartFlagA_flip s hCRA,
      toggleStartFlagA_flip { s with CRA := s.CRA ^^^ 0x01 } (byte_xor1_lt s.CRA hCRA)]
    simp [Nat.xor_cancel_right]
  · rw [toggleUnderflowFlagA_flip s hCRA,
      toggleUnderflowFlagA_flip { s with CRA := s.CRA ^^^ 0x02 } (byte_xor2_lt s.CRA hCRA)]
    simp [Nat.xor_cancel_right]
  · rw [toggleOneShotFlagA_flip s hCRA,
      toggleOneShotFlagA_flip { s with CRA := s.CRA ^^^ 0x08 } (byte_xor8_lt s.CRA hCRA)]
    simp [Nat.xor_cancel_right]
  · rw [toggleInterruptEnableFlagA_flip s hIMR,
      toggleInterruptEnableFlagA_flip { s with IMR := s.IMR ^^^ 0x01 } (byte_xor1_lt s.IMR hIMR)]
    simp [Nat.xor_cancel_right]
  · rw [togglePendingSignalFlagA_flip s hICR,
      togglePendingSignalFlagA_flip { s with ICR := s.ICR ^^^ 0x01 } (byte_xor1_lt s.ICR hICR)]
    simp [Nat.xor_cancel_right]
  · rw [toggleStartFlagB_flip s hCRB,
      toggleStartFlagB_flip { s with CRB := s.CRB ^^^ 0x01 } (byte_xor1_lt s.CRB hCRB)]
    simp [Nat.xor_cancel_right]
  · rw [toggleUnderflowFlagB_flip s hCRB,
      toggleUnderflowFlagB_flip { s with CRB := s.CRB ^^^ 0x02 } (byte_xor2_lt s.CRB hCRB)]
    simp [Nat.xor_cancel_right]
  · rw [toggleOneShotFlagB_flip s hCRB,
      toggleOneShotFlagB_flip { s with CRB := s.CRB ^^^ 0x08 } (byte_xor8_lt s.CRB hCRB)]
    simp [Nat.xor_cancel_right]
  · rw [toggleInterruptEnableFlagB_flip s hIMR,
      toggleInterruptEnableFlagB_flip { s with IMR := s.IMR ^^^ 0x02 } (byte_xor2_lt s.IMR hIMR)]
    simp [Nat.xor_cancel_right]
  · rw [togglePendingSignalFlagB_flip s hICR,
      togglePendingSignalFlagB_flip { s with ICR := s.ICR ^^^ 0x02 } (byte_xor2_lt s.ICR hICR)]
    simp [Nat.xor_cancel_right]

/-- Claim C10 (witness): instantiation at the sample state. -/
theorem toggle_involutions_witness :
    sampleState.CRA < 256 ∧ sampleState.CRB < 256 ∧
    sampleState.ICR < 256 ∧ sampleState.IMR < 256 ∧
    (toggleStartFlagA sampleState = { sampleState with CRA := sampleState.CRA ^^^ 0x01 } ∧
     toggleStartFlagA (toggleStartFlagA sampleState) = sampleState) := by
  have h := toggle_involutions sampleState (by decide) (by decide) (by decide) (by decide)
  exact ⟨by decide, by decide, by decide, by decide, h.1⟩

end VC64
